import Mathlib

/-!
Verification of the Spot-TV remote-control connection orchestrator
(`createSpotTVRemoteControlConnection` and companions) and the `setup`
Redux reducer, shallowly embedded from the JavaScript sources.
-/

namespace SpotTV

/-- JavaScript truthiness of an optional string value: `undefined`/`null`
and the empty string are falsy, any non-empty string is truthy. -/
def truthy : Option String → Bool
  | none => false
  | some s => s != ""

/-- The observable effects performed by the orchestrator's handlers:
dispatched Redux actions, the retry timer, error propagation, and calls
into the transport collaborator (`remoteControlServer`). -/
inductive Effect where
  | destroyConnection
  | setRemoteJoinCode (code : String)
  | clearAllPairedRemotes
  | setPermanentPairingCode (code : String)
  | scheduleRetry (jitterAttemptParam : Nat)
  | propagateError
  | transportDisconnect
  | resolveNoop
deriving DecidableEq

/-- Recognizes the retry-scheduling effect. -/
def isScheduleRetry : Effect → Bool
  | .scheduleRetry _ => true
  | _ => false

/-- The closure context available to `onDisconnect`: the `pairingCode` and
`retry` arguments of `createSpotTVRemoteControlConnection` and the
`initiallyConnected` closure variable. -/
structure DisconnectCtx where
  pairingCode : Option String
  retry : Bool
  initiallyConnected : Bool

/-- Embeds `onDisconnect` (part_000 lines 170-194) as the list of effects it
performs, given whether `remoteControlServer.isUnrecoverableRequestError`
returned true for the error.  The handler first dispatches
`destroyConnection`, `setRemoteJoinCode('')` and `clearAllPairedRemotes`;
then, if `pairingCode` is truthy and the error is unrecoverable, it
dispatches `setPermanentPairingCode('')` and rethrows; else if
`retry || initiallyConnected` it schedules a reconnect after
`getJitterDelay(3)`; else it rethrows. -/
def onDisconnectEffects (ctx : DisconnectCtx) (isUnrecoverable : Bool) : List Effect :=
  [.destroyConnection, .setRemoteJoinCode "", .clearAllPairedRemotes] ++
    (if truthy ctx.pairingCode && isUnrecoverable then
      [.setPermanentPairingCode "", .propagateError]
    else if ctx.retry || ctx.initiallyConnected then
      [.scheduleRetry 3]
    else
      [.propagateError])

/-- Connection metadata produced by a successful connect
(the `result` received by `onSuccessfulConnect`). -/
structure SessionResult where
  jwt : Option String
  permanentPairingCode : Option String
  remoteJoinCode : String
  roomProfileId : String
  roomProfileName : String
  tenant : Option String

/-- The per-invocation configuration of one
`createSpotTVRemoteControlConnection` thunk: its `pairingCode` and `retry`
arguments and whether `isBackendEnabled(getState())` holds. -/
structure OrchConfig where
  pairingCode : Option String
  retry : Bool
  backendEnabled : Bool

/-- The Redux-visible state an orchestrator instance mutates, together with
the `initiallyConnected` closure variable declared at line 99. -/
structure OrchState where
  initiallyConnected : Bool
  remoteJoinCode : String
  jwt : Option String
  tenant : Option String
  permanentPairingCode : Option String
  pairedRemotes : List (String × String)
  displayName : Option String

/-- The state as it stands when the thunk is created: `initiallyConnected`
starts out `false` (line 99) and nothing is known yet. -/
def initialOrchState : OrchState :=
  { initiallyConnected := false
    remoteJoinCode := ""
    jwt := none
    tenant := none
    permanentPairingCode := none
    pairedRemotes := []
    displayName := none }

/-- The events delivered to the handlers the thunk registers on
`remoteControlServer`, plus the resolution of `doConnect` itself. -/
inductive OrchEvent where
  | connectSucceeded (result : SessionResult)
  | disconnected (isUnrecoverable : Bool)
  | remoteConnected (id kind : String)
  | remoteDisconnected (id : String)
  | registrationChanged (jwt tenant : Option String)
  | remoteJoinCodeChanged (code : String)

/-- Embeds `onSuccessfulConnect` (lines 114-138): sets
`initiallyConnected = true`, stores the join code, jwt, tenant and
permanent pairing code, and, when the backend is enabled, the display
name from the room profile. -/
def onSuccessfulConnectStep (cfg : OrchConfig) (s : OrchState) (r : SessionResult) : OrchState :=
  { s with
    initiallyConnected := true
    remoteJoinCode := r.remoteJoinCode
    jwt := r.jwt
    tenant := r.tenant
    permanentPairingCode := r.permanentPairingCode
    displayName := if cfg.backendEnabled then some r.roomProfileName else s.displayName }

/-- The state changes `onDisconnect` makes (lines 170-180): it clears the
join code and the paired-remote set, and additionally clears the stored
permanent pairing code when `pairingCode` is truthy and the error is
unrecoverable. -/
def onDisconnectStep (cfg : OrchConfig) (s : OrchState) (isUnrecoverable : Bool) : OrchState :=
  let s1 := { s with remoteJoinCode := "", pairedRemotes := [] }
  if truthy cfg.pairingCode && isUnrecoverable then
    { s1 with permanentPairingCode := some "" }
  else
    s1

/-- One step of the orchestrator: dispatches each event to the handler the
thunk registered for it (`onSuccessfulConnect`, `onDisconnect`,
`onRemoteConnected`, `onRemoteDisconnected`, `onRegistrationChange`,
`onRemoteJoinCodeChange`). -/
def step (cfg : OrchConfig) (s : OrchState) (e : OrchEvent) : OrchState :=
  match e with
  | .connectSucceeded r => onSuccessfulConnectStep cfg s r
  | .disconnected u => onDisconnectStep cfg s u
  | .remoteConnected id kind => { s with pairedRemotes := (id, kind) :: s.pairedRemotes }
  | .remoteDisconnected id =>
      { s with pairedRemotes := s.pairedRemotes.filter (fun p => p.1 != id) }
  | .registrationChanged jwt tenant => { s with jwt := jwt, tenant := tenant }
  | .remoteJoinCodeChanged code => { s with remoteJoinCode := code }

/-- Runs a whole sequence of events through one orchestrator instance. -/
def runEvents (cfg : OrchConfig) (s : OrchState) (events : List OrchEvent) : OrchState :=
  events.foldl (step cfg) s

/-- The options object `createConnection` passes to
`remoteControlServer.connect`. -/
structure ConnectOptions where
  backendEnabled : Bool
  joinAsSpot : Bool
  joinCode : Option String
deriving DecidableEq

/-- The outcome of `createConnection` (lines 275-307): either an immediate
rejection before any transport call, or an invocation of the transport
collaborator's `connect` with the built options. -/
inductive CreateConnectionResult where
  | rejectedValidation (message : String)
  | transportConnect (options : ConnectOptions)
deriving DecidableEq

/-- Embeds `createConnection`: a backend service is constructed iff
`isBackendEnabled(state)`; if the backend is present and the permanent
pairing code is falsy the promise rejects before `remoteControlServer
.connect` is reached; otherwise the transport connect is invoked. -/
def createConnection (backendEnabled : Bool) (permanentPairingCode : Option String) :
    CreateConnectionResult :=
  if backendEnabled && !(truthy permanentPairingCode) then
    .rejectedValidation "The pairing code is required when the backend is enabled"
  else
    .transportConnect
      { backendEnabled := backendEnabled
        joinAsSpot := true
        joinCode := permanentPairingCode }

/-- What the `createSpotTVRemoteControlConnection` thunk does
synchronously on invocation (lines 101-261), as a function of
`remoteControlServer.hasConnection()`. -/
structure ConnectCallOutcome where
  rejectedAlreadyConnected : Bool
  listenersRegistered : List String
  connectAttempted : Bool
  dispatched : List String
deriving DecidableEq

/-- Embeds the body of the thunk returned by
`createSpotTVRemoteControlConnection`: when `hasConnection()` is true it
returns a rejected promise at once (line 103) — before any listener
registration (lines 240-259) and before `doConnect` runs; otherwise it
registers the five listeners and calls `doConnect`, whose async wrapper
dispatches the `CREATE_CONNECTION` pending action. -/
def createSpotTVRemoteControlConnectionCall (hasConnection : Bool) : ConnectCallOutcome :=
  if hasConnection then
    { rejectedAlreadyConnected := true
      listenersRegistered := []
      connectAttempted := false
      dispatched := [] }
  else
    { rejectedAlreadyConnected := false
      listenersRegistered :=
        ["UNRECOVERABLE_DISCONNECT", "REMOTE_JOIN_CODE_CHANGE", "REGISTRATION_UPDATED",
         "CLIENT_JOINED", "CLIENT_LEFT"]
      connectAttempted := true
      dispatched := ["CREATE_CONNECTION"] }

/-- A long-lived pairing code with its expiry timestamp, as stored by
`setLongLivedPairingCodeInfo`. -/
structure LongLivedPairingCodeInfo where
  code : String
  expires : Int
deriving DecidableEq

/-- One hour in milliseconds, as computed at line 361. -/
def oneHour : Int := 1000 * 60 * 60

/-- The refresh condition of `generateLongLivedPairingCodeIfExpired`
(line 364): no stored info, or `info.expires - Date.now() < oneHour`. -/
def longLivedCodeNeedsRefresh (info : Option LongLivedPairingCodeInfo) (now : Int) : Bool :=
  match info with
  | none => true
  | some i => decide (i.expires - now < oneHour)

/-- The outcome of one `generateLongLivedPairingCodeIfExpired` call:
whether the backend issuance request (`remoteControlServer
.generateLongLivedPairingCode`) was made, and the stored info afterwards. -/
structure RefreshOutcome where
  backendRequested : Bool
  stored : Option LongLivedPairingCodeInfo
deriving DecidableEq

/-- Embeds `generateLongLivedPairingCodeIfExpired` (lines 357-372) run to
completion in isolation: when the stored code is absent or expires within
the hour, `generateLongLivedPairingCode` is dispatched, which requests a
fresh code from the backend and stores it via
`setLongLivedPairingCodeInfo`; otherwise it resolves with no request and
the store untouched. -/
def generateLongLivedPairingCodeIfExpired (stored : Option LongLivedPairingCodeInfo)
    (now : Int) (fresh : LongLivedPairingCodeInfo) : RefreshOutcome :=
  if longLivedCodeNeedsRefresh stored now then
    { backendRequested := true, stored := some fresh }
  else
    { backendRequested := false, stored := stored }

/-- The shared world two concurrent refresh callers operate on: the Redux
store slot for the long-lived code and a count of backend issuance
requests. -/
structure RefreshWorld where
  stored : Option LongLivedPairingCodeInfo
  backendCalls : Nat
deriving DecidableEq

/-- What a refresh invocation is doing after its synchronous part ran:
it either started a backend request that has not resolved yet, or it
finished immediately without one. -/
inductive RefreshPhase where
  | pendingBackend
  | doneNoRequest
deriving DecidableEq

/-- The synchronous part of one `generateLongLivedPairingCodeIfExpired`
invocation: it reads the store via `getState()` and, when a refresh is
due, immediately issues the backend request (there is no in-flight guard
in lines 345-372). The store is only written later, when that request
resolves. -/
def refreshStart (now : Int) (w : RefreshWorld) : RefreshPhase × RefreshWorld :=
  if longLivedCodeNeedsRefresh w.stored now then
    (.pendingBackend, { w with backendCalls := w.backendCalls + 1 })
  else
    (.doneNoRequest, w)

/-- The resolution of one invocation: if it had a backend request in
flight, the fresh code is dispatched to the store
(`setLongLivedPairingCodeInfo`); otherwise nothing happens. -/
def refreshResolve (fresh : LongLivedPairingCodeInfo) (p : RefreshPhase) (w : RefreshWorld) :
    RefreshWorld :=
  match p with
  | .pendingBackend => { w with stored := some fresh }
  | .doneNoRequest => w

/-- Two invocations of `generateLongLivedPairingCodeIfExpired` made
concurrently, with both synchronous parts running before either backend
request resolves (the schedule the spec's concurrency property is about). -/
def twoConcurrentRefreshes (stored : Option LongLivedPairingCodeInfo) (now : Int)
    (fresh1 fresh2 : LongLivedPairingCodeInfo) : RefreshWorld :=
  let w0 : RefreshWorld := { stored := stored, backendCalls := 0 }
  let r1 := refreshStart now w0
  let r2 := refreshStart now r1.2
  let w3 := refreshResolve fresh1 r1.1 r2.2
  refreshResolve fresh2 r2.1 w3

/-- The synchronous outcome of `disconnectSpotTvRemoteControl`
(lines 330-338): with no connection it resolves at once; otherwise it
calls the transport collaborator's `disconnect`. -/
inductive DisconnectCall where
  | noopResolve
  | transportDisconnect
deriving DecidableEq

/-- Embeds `disconnectSpotTvRemoteControl`. -/
def disconnectSpotTvRemoteControl (hasConnection : Bool) : DisconnectCall :=
  if !hasConnection then .noopResolve else .transportDisconnect

/-- Modelled from the spec: the transport collaborator's `disconnect`
implementation is not under src/; per spec section 4.3 (`close()` is
idempotent) and section 4.4 step 7, an explicit disconnect of an active
session tears the session down, applying the orchestrator's teardown
cleanup — `destroyConnection`, `setRemoteJoinCode('')`,
`clearAllPairedRemotes` (the cleanup itself is the src code of
`onDisconnect`, lines 172-174). The explicit-disconnect path contains no
retry scheduling. -/
def explicitDisconnectEffects (hasConnection : Bool) : List Effect :=
  match disconnectSpotTvRemoteControl hasConnection with
  | .noopResolve => [.resolveNoop]
  | .transportDisconnect =>
      [.transportDisconnect, .destroyConnection, .setRemoteJoinCode "",
       .clearAllPairedRemotes]

end SpotTV

namespace SetupReducer

/-- The 'setup' feature state (reducer.js lines 9-15). -/
structure SetupState where
  avatarUrl : String
  completed : Bool
  displayName : String
  isSpot : Bool
  showMeetingToolbar : Bool
deriving DecidableEq

/-- The default state of the 'setup' reducer. -/
def DEFAULT_STATE : SetupState :=
  { avatarUrl := ""
    completed := false
    displayName := ""
    isSpot := false
    showMeetingToolbar := false }

/-- The actions the 'setup' reducer switches on, with their payload
fields; `other` stands for every unhandled action type. -/
inductive SetupAction where
  | setupCompleted
  | setAvatarUrl (avatarUrl : String)
  | setDisplayName (displayName : String)
  | setIsSpot (isSpot : Bool)
  | setShowMeetingToolbar (visible : Bool)
  | other

/-- Embeds the `setup` reducer (reducer.js lines 25-60). -/
def setup (state : SetupState) (action : SetupAction) : SetupState :=
  match action with
  | .setupCompleted => { state with completed := true }
  | .setAvatarUrl avatarUrl => { state with avatarUrl := avatarUrl }
  | .setDisplayName displayName => { state with displayName := displayName }
  | .setIsSpot isSpot => { state with isSpot := isSpot }
  | .setShowMeetingToolbar visible => { state with showMeetingToolbar := visible }
  | .other => state

/-- Runs a sequence of actions through the reducer. -/
def runActions (s : SetupState) (acts : List SetupAction) : SetupState :=
  acts.foldl setup s

end SetupReducer

namespace SpotTV

theorem step_keeps_initiallyConnected (cfg : OrchConfig) (s : OrchState) (e : OrchEvent)
    (h : s.initiallyConnected = true) : (step cfg s e).initiallyConnected = true := by
  cases e with
  | connectSucceeded r => simp [step, onSuccessfulConnectStep]
  | disconnected u =>
      simp only [step, onDisconnectStep]
      split <;> simpa using h
  | remoteConnected id kind => simpa [step] using h
  | remoteDisconnected id => simpa [step] using h
  | registrationChanged jwt tenant => simpa [step] using h
  | remoteJoinCodeChanged code => simpa [step] using h

theorem runEvents_keeps_initiallyConnected (cfg : OrchConfig) (events : List OrchEvent) :
    ∀ s : OrchState, s.initiallyConnected = true →
      (runEvents cfg s events).initiallyConnected = true := by
  induction events with
  | nil => intro s h; exact h
  | cons e rest ih =>
      intro s h
      exact ih (step cfg s e) (step_keeps_initiallyConnected cfg s e h)

/-- C1: on a transient (non-unrecoverable) disconnect, `onDisconnect`
schedules a retry (after the jitter delay, with the same request) exactly
when `retry || initiallyConnected`; with the gate closed it propagates the
error and schedules no retry. -/
theorem transient_retry_gate (ctx : DisconnectCtx) :
    ((ctx.retry || ctx.initiallyConnected) = true →
      onDisconnectEffects ctx false
        = [.destroyConnection, .setRemoteJoinCode "", .clearAllPairedRemotes,
           .scheduleRetry 3])
  ∧ ((ctx.retry || ctx.initiallyConnected) = false →
      onDisconnectEffects ctx false
        = [.destroyConnection, .setRemoteJoinCode "", .clearAllPairedRemotes,
           .propagateError]
      ∧ (onDisconnectEffects ctx false).all (fun e => !(isScheduleRetry e)) = true) := by
  constructor
  · intro h
    simp [onDisconnectEffects, h]
  · intro h
    refine ⟨?_, ?_⟩ <;> simp [onDisconnectEffects, h, isScheduleRetry]

/-- Witness for C1 at a concrete gate-open and a concrete gate-closed context. -/
theorem transient_retry_gate_witness :
    onDisconnectEffects { pairingCode := none, retry := false, initiallyConnected := true } false
      = [.destroyConnection, .setRemoteJoinCode "", .clearAllPairedRemotes, .scheduleRetry 3]
  ∧ onDisconnectEffects { pairingCode := none, retry := false, initiallyConnected := false } false
      = [.destroyConnection, .setRemoteJoinCode "", .clearAllPairedRemotes, .propagateError] :=
  ⟨(transient_retry_gate _).1 (by decide),
   ((transient_retry_gate _).2 (by decide)).1⟩

/-- C2 counterexample: an unrecoverable disconnect with no pairing code and
`retry = true` does schedule a retry, and does not clear the stored
permanent pairing code — refuting the claim that an unrecoverable error
never triggers a retry regardless of the flags. -/
theorem unrecoverable_retry_counterexample :
    Effect.scheduleRetry 3
      ∈ onDisconnectEffects { pairingCode := none, retry := true, initiallyConnected := false } true
  ∧ Effect.setPermanentPairingCode ""
      ∉ onDisconnectEffects { pairingCode := none, retry := true, initiallyConnected := false } true := by
  decide

/-- C2 (amended): for every unrecoverable disconnect where the connect
request supplied a truthy pairing code, `onDisconnect` never schedules a
retry regardless of `retry` and `initiallyConnected`; it clears the stored
permanent pairing code and propagates the error. -/
theorem unrecoverable_with_pairing_code (ctx : DisconnectCtx)
    (h : truthy ctx.pairingCode = true) :
    onDisconnectEffects ctx true
      = [.destroyConnection, .setRemoteJoinCode "", .clearAllPairedRemotes,
         .setPermanentPairingCode "", .propagateError]
  ∧ (onDisconnectEffects ctx true).all (fun e => !(isScheduleRetry e)) = true := by
  refine ⟨?_, ?_⟩ <;> simp [onDisconnectEffects, h, isScheduleRetry]

/-- Witness for the amended C2 at a concrete context with both retry gates open. -/
theorem unrecoverable_with_pairing_code_witness :
    onDisconnectEffects { pairingCode := some "ABC123", retry := true, initiallyConnected := true } true
      = [.destroyConnection, .setRemoteJoinCode "", .clearAllPairedRemotes,
         .setPermanentPairingCode "", .propagateError] :=
  (unrecoverable_with_pairing_code _ (by decide)).1

/-- C3: with the backend enabled and no (or an empty) pairing code,
`createConnection` rejects with the validation message and the transport
collaborator's `connect` is never invoked for that request. -/
theorem backend_requires_pairing_code (code : Option String) (h : truthy code = false) :
    createConnection true code
      = .rejectedValidation "The pairing code is required when the backend is enabled"
  ∧ ∀ opts : ConnectOptions, createConnection true code ≠ .transportConnect opts := by
  refine ⟨?_, ?_⟩
  · simp [createConnection, h]
  · intro opts
    simp [createConnection, h]

/-- Witness for C3 at the concrete input of a missing pairing code. -/
theorem backend_requires_pairing_code_witness :
    createConnection true none
      = .rejectedValidation "The pairing code is required when the backend is enabled" :=
  (backend_requires_pairing_code none (by decide)).1

end SpotTV

namespace SpotTV

/-- C4: within one `createSpotTVRemoteControlConnection` instance the
`initiallyConnected` flag is monotonic — it starts `false`, a successful
connect sets it `true`, and no event of the instance's lifetime ever
resets it to `false`. -/
theorem initiallyConnected_monotonic :
    initialOrchState.initiallyConnected = false
  ∧ (∀ (cfg : OrchConfig) (s : OrchState) (r : SessionResult),
      (step cfg s (OrchEvent.connectSucceeded r)).initiallyConnected = true)
  ∧ (∀ (cfg : OrchConfig) (s : OrchState) (events : List OrchEvent),
      s.initiallyConnected = true →
        (runEvents cfg s events).initiallyConnected = true) := by
  refine ⟨rfl, ?_, ?_⟩
  · intro cfg s r
    simp [step, onSuccessfulConnectStep]
  · intro cfg s events h
    exact runEvents_keeps_initiallyConnected cfg events s h

/-- Witness for C4: a concrete post-success trace of a disconnect, a peer
join and a config change keeps the flag `true`. -/
theorem initiallyConnected_monotonic_witness :
    (runEvents { pairingCode := none, retry := false, backendEnabled := false }
        { initialOrchState with initiallyConnected := true }
        [OrchEvent.disconnected true, OrchEvent.remoteConnected "r1" "temporary",
         OrchEvent.remoteJoinCodeChanged "XYZ"]).initiallyConnected = true :=
  initiallyConnected_monotonic.2.2
    { pairingCode := none, retry := false, backendEnabled := false }
    { initialOrchState with initiallyConnected := true }
    [OrchEvent.disconnected true, OrchEvent.remoteConnected "r1" "temporary",
     OrchEvent.remoteJoinCodeChanged "XYZ"]
    rfl

/-- C5: a connect call arriving while `hasConnection()` is true rejects
synchronously, registers no event listeners, makes no connect attempt and
dispatches nothing, leaving the existing session's state unchanged. -/
theorem connect_while_connected_rejected :
    createSpotTVRemoteControlConnectionCall true
      = { rejectedAlreadyConnected := true
          listenersRegistered := []
          connectAttempted := false
          dispatched := [] } := by
  rfl

/-- C6: `generateLongLivedPairingCodeIfExpired` requests a fresh code from
the backend exactly when no code is stored or the remaining validity is
below one hour, in which case the fresh code replaces the stored value;
otherwise it resolves with no backend request and the store unchanged. -/
theorem refresh_if_expiring_soon (stored : Option LongLivedPairingCodeInfo) (now : Int)
    (fresh : LongLivedPairingCodeInfo) :
    ((generateLongLivedPairingCodeIfExpired stored now fresh).backendRequested = true
      ↔ stored = none ∨ ∃ i, stored = some i ∧ i.expires - now < oneHour)
  ∧ ((generateLongLivedPairingCodeIfExpired stored now fresh).backendRequested = true →
      (generateLongLivedPairingCodeIfExpired stored now fresh).stored = some fresh)
  ∧ ((generateLongLivedPairingCodeIfExpired stored now fresh).backendRequested = false →
      (generateLongLivedPairingCodeIfExpired stored now fresh).stored = stored) := by
  refine ⟨?_, ?_, ?_⟩
  · cases stored with
    | none => simp [generateLongLivedPairingCodeIfExpired, longLivedCodeNeedsRefresh]
    | some i =>
        simp only [generateLongLivedPairingCodeIfExpired, longLivedCodeNeedsRefresh]
        by_cases h : i.expires - now < oneHour
        · simp [h]
        · simp [h]
  · intro h
    by_cases hb : longLivedCodeNeedsRefresh stored now = true
    · simp [generateLongLivedPairingCodeIfExpired, hb]
    · simp [generateLongLivedPairingCodeIfExpired, hb] at h
  · intro h
    by_cases hb : longLivedCodeNeedsRefresh stored now = true
    · simp [generateLongLivedPairingCodeIfExpired, hb] at h
    · simp [generateLongLivedPairingCodeIfExpired, hb]

/-- Witness for C6: a stored code with 30 minutes of validity left is
refreshed and replaced; implicitly exercising the refresh condition. -/
theorem refresh_if_expiring_soon_witness :
    ((generateLongLivedPairingCodeIfExpired
        (some { code := "old", expires := 1800000 }) 0
        { code := "new", expires := 7200000 }).backendRequested = true
      ↔ (some { code := "old", expires := 1800000 }
            : Option LongLivedPairingCodeInfo) = none
        ∨ ∃ i, (some { code := "old", expires := 1800000 }
            : Option LongLivedPairingCodeInfo) = some i ∧ i.expires - 0 < oneHour)
  ∧ (generateLongLivedPairingCodeIfExpired
        (some { code := "old", expires := 1800000 }) 0
        { code := "new", expires := 7200000 }).stored
      = some { code := "new", expires := 7200000 } :=
  ⟨(refresh_if_expiring_soon (some { code := "old", expires := 1800000 }) 0
      { code := "new", expires := 7200000 }).1,
   (refresh_if_expiring_soon (some { code := "old", expires := 1800000 }) 0
      { code := "new", expires := 7200000 }).2.1 (by decide)⟩

end SpotTV

namespace SpotTV

/-- C7 counterexample: with no stored code, two refresh invocations made
concurrently before either resolves each issue their own backend
request — two backend calls, refuting "at most one backend issuance
request". -/
theorem concurrent_refresh_counterexample :
    (twoConcurrentRefreshes none 0
        { code := "11111111", expires := 7200000 }
        { code := "22222222", expires := 7200000 }).backendCalls = 2
  ∧ ¬ (twoConcurrentRefreshes none 0
        { code := "11111111", expires := 7200000 }
        { code := "22222222", expires := 7200000 }).backendCalls ≤ 1 := by
  decide

/-- C7 (amended): there is no in-flight de-duplication — whenever a
refresh is due, each of two concurrent invocations that both start before
either resolves issues its own backend request, for two requests total;
when no refresh is due, neither issues one. -/
theorem concurrent_refresh_no_dedup (stored : Option LongLivedPairingCodeInfo) (now : Int)
    (fresh1 fresh2 : LongLivedPairingCodeInfo) :
    (longLivedCodeNeedsRefresh stored now = true →
      (twoConcurrentRefreshes stored now fresh1 fresh2).backendCalls = 2)
  ∧ (longLivedCodeNeedsRefresh stored now = false →
      (twoConcurrentRefreshes stored now fresh1 fresh2).backendCalls = 0) := by
  constructor
  · intro h
    simp [twoConcurrentRefreshes, refreshStart, refreshResolve, h]
  · intro h
    simp [twoConcurrentRefreshes, refreshStart, refreshResolve, h]

/-- Witness for the amended C7 at a concrete expiring stored code. -/
theorem concurrent_refresh_no_dedup_witness :
    (twoConcurrentRefreshes (some { code := "old", expires := 100 }) 0
        { code := "11111111", expires := 7200000 }
        { code := "22222222", expires := 7200000 }).backendCalls = 2 :=
  (concurrent_refresh_no_dedup (some { code := "old", expires := 100 }) 0
      { code := "11111111", expires := 7200000 }
      { code := "22222222", expires := 7200000 }).1 (by decide)

/-- C8: every retry `onDisconnect` ever schedules computes its backoff
delay with the constant attempt-count argument 3 (the literal
`getJitterDelay(3)` at line 182), never with an increasing count. -/
theorem backoff_attempt_always_three (ctx : DisconnectCtx) (isUnrecoverable : Bool) (n : Nat)
    (h : Effect.scheduleRetry n ∈ onDisconnectEffects ctx isUnrecoverable) : n = 3 := by
  by_cases h1 : (truthy ctx.pairingCode && isUnrecoverable) = true
  · simp [onDisconnectEffects, h1] at h
  · by_cases h2 : (ctx.retry || ctx.initiallyConnected) = true
    · simp [onDisconnectEffects, h1, h2] at h
      exact h
    · simp [onDisconnectEffects, h1, h2] at h

/-- Witness for C8: the retry scheduled for a transient drop after a
successful connect uses attempt parameter 3. -/
theorem backoff_attempt_always_three_witness : (3 : Nat) = 3 :=
  backoff_attempt_always_three
    { pairingCode := none, retry := false, initiallyConnected := true } false 3
    (by decide)

/-- C9: an explicit disconnect request resolves as a no-op when no session
is active; with an active session it disconnects the transport and the
teardown clears the stored join code and the paired-remote set; in either
case no retry is ever scheduled. -/
theorem explicit_disconnect_idempotent_no_retry :
    explicitDisconnectEffects false = [Effect.resolveNoop]
  ∧ explicitDisconnectEffects true
      = [Effect.transportDisconnect, Effect.destroyConnection,
         Effect.setRemoteJoinCode "", Effect.clearAllPairedRemotes]
  ∧ (∀ hasConnection : Bool,
      (explicitDisconnectEffects hasConnection).all (fun e => !(isScheduleRetry e)) = true) := by
  refine ⟨rfl, rfl, ?_⟩
  intro hasConnection
  cases hasConnection <;> decide

end SpotTV

namespace SetupReducer

theorem setup_keeps_completed (s : SetupState) (a : SetupAction)
    (h : s.completed = true) : (setup s a).completed = true := by
  cases a <;> simp [setup, h]

theorem runActions_keeps_completed (acts : List SetupAction) :
    ∀ s : SetupState, s.completed = true → (runActions s acts).completed = true := by
  induction acts with
  | nil => intro s h; exact h
  | cons a rest ih =>
      intro s h
      exact ih (setup s a) (setup_keeps_completed s a h)

/-- C10: in the `setup` reducer the `completed` flag is monotonic —
`SETUP_COMPLETED` sets it to `true` and no sequence of actions ever resets
it — every handled action updates only its own target field, leaving the
rest of the state unchanged, and an unhandled action returns the state
unchanged. -/
theorem setup_reducer_claims (s : SetupState) :
    DEFAULT_STATE.completed = false
  ∧ (setup s SetupAction.setupCompleted = { s with completed := true })
  ∧ (∀ acts : List SetupAction, s.completed = true → (runActions s acts).completed = true)
  ∧ (∀ u, setup s (SetupAction.setAvatarUrl u) = { s with avatarUrl := u })
  ∧ (∀ d, setup s (SetupAction.setDisplayName d) = { s with displayName := d })
  ∧ (∀ b, setup s (SetupAction.setIsSpot b) = { s with isSpot := b })
  ∧ (∀ v, setup s (SetupAction.setShowMeetingToolbar v) = { s with showMeetingToolbar := v })
  ∧ (setup s SetupAction.other = s) := by
  refine ⟨rfl, rfl, ?_, fun u => rfl, fun d => rfl, fun b => rfl, fun v => rfl, rfl⟩
  intro acts h
  exact runActions_keeps_completed acts s h

/-- Witness for C10: starting from the default state, completing setup and
then applying every other action kind leaves `completed` at `true`. -/
theorem setup_reducer_claims_witness :
    (runActions { DEFAULT_STATE with completed := true }
        [SetupAction.setAvatarUrl "http://a", SetupAction.setDisplayName "Room",
         SetupAction.setIsSpot true, SetupAction.setShowMeetingToolbar false,
         SetupAction.other]).completed = true :=
  (setup_reducer_claims { DEFAULT_STATE with completed := true }).2.2.1
    [SetupAction.setAvatarUrl "http://a", SetupAction.setDisplayName "Room",
     SetupAction.setIsSpot true, SetupAction.setShowMeetingToolbar false,
     SetupAction.other]
    rfl

end SetupReducer
